import Mathlib

/-!
Shallow embedding of the Home-Cleaning-Service frontend client
(`src/frontend/src`), covering the HTTP client wrapper (`services/api.js`),
the session context (`context/AuthContext.jsx`), the Google OAuth callback
page (`pages/GoogleCallback.jsx`), the registration page, the service search
page and the cleaner bookings page, together with theorems settling the
specification claims about them.
-/

namespace CleanApp

/-- The two token keys of durable local storage (`localStorage`), as read and
written by `api.js` and `AuthContext.jsx` under the fixed keys
`access_token` and `refresh_token`. `none` models an absent key. -/
structure Storage where
  access_token : Option String
  refresh_token : Option String
deriving DecidableEq, Repr

/-- An outgoing request configuration (axios `config`): its URL, the
`Authorization` header (absent or a string value), and the `_retry` marker
the response interceptor sets on a config it has already retried. -/
structure Config where
  url : String
  authorization : Option String
  retryFlag : Bool
deriving DecidableEq, Repr

/-- `api.interceptors.request.use` in `api.js`: reads `access_token` from
storage; when present, sets `config.headers.Authorization` to
`Bearer <token>`; otherwise returns the config unchanged. -/
def requestInterceptor (st : Storage) (c : Config) : Config :=
  match st.access_token with
  | some t => { c with authorization := some ("Bearer " ++ t) }
  | none => c

/-- What the response interceptor's error handler resolves to control-wise:
either it rejects with the original error (`return Promise.reject(error)`)
or it reissues the original request (`return api(originalRequest)`)
with the updated config. -/
inductive InterceptAction where
  | reject
  | retry (c : Config)
deriving DecidableEq, Repr

/-- Observable outcome of one run of the response interceptor's error
handler: resulting token storage, the value assigned to
`window.location.href` if any, how many `POST /auth/refresh` calls were
issued, and the control action taken. -/
structure InterceptOut where
  storage : Storage
  nav : Option String
  refreshCalls : Nat
  action : InterceptAction
deriving DecidableEq, Repr

/-- Body of the 401-handling error callback of
`api.interceptors.response.use` in `api.js`, after the dereference of
`error.response.status` has produced `status`. `refreshResult` models the
network outcome of `POST /auth/refresh`: `some (a, r)` means the call
succeeds and its body destructures to the token pair `(a, r)`; `none`
means the call rejects (caught by the `catch` block, which clears both
tokens and navigates to `/login`). With no refresh token in storage the
code falls through to `Promise.reject(error)` without touching storage. -/
def respInterceptorCore (st : Storage) (refreshResult : Option (String × String))
    (cfg : Config) (status : Nat) : InterceptOut :=
  if status = 401 ∧ cfg.retryFlag = false then
    let cfg1 : Config := { cfg with retryFlag := true }
    match st.refresh_token with
    | some _ =>
      match refreshResult with
      | some (a, r) =>
        { storage := { access_token := some a, refresh_token := some r }
          nav := none
          refreshCalls := 1
          action := .retry { cfg1 with authorization := some ("Bearer " ++ a) } }
      | none =>
        { storage := { access_token := none, refresh_token := none }
          nav := some "/login"
          refreshCalls := 1
          action := .reject }
    | none =>
      { storage := st, nav := none, refreshCalls := 0, action := .reject }
  else
    { storage := st, nav := none, refreshCalls := 0, action := .reject }

/-- A rejected request as the response interceptor receives it: the original
config and, when the server answered at all, the response status.
`response := none` models a pure network/transport failure, where axios sets
`error.response` to `undefined`. -/
structure RespError where
  config : Config
  response : Option Nat
deriving DecidableEq, Repr

/-- The full error callback of `api.interceptors.response.use`: its first
read is `error.response.status`, with no guard that a response exists, so
on `response := none` the handler itself faults (`Except.error ()`, the
thrown `TypeError`) instead of rejecting with the original error. -/
def responseInterceptorErr (st : Storage) (refreshResult : Option (String × String))
    (e : RespError) : Except Unit InterceptOut :=
  match e.response with
  | none => .error ()
  | some status => .ok (respInterceptorCore st refreshResult e.config status)

/-- `listStartsWith l p`: the character list `p` is an initial segment of
`l`. Helper for the JavaScript `String.prototype.includes` check used by
`AuthContext.jsx` on `window.location.pathname`. -/
def listStartsWith : List Char → List Char → Bool
  | _, [] => true
  | [], _ :: _ => false
  | a :: as, b :: bs => a == b && listStartsWith as bs

/-- `listHasSub l sub`: `sub` occurs contiguously inside `l`. -/
def listHasSub : List Char → List Char → Bool
  | [], sub => sub.isEmpty
  | a :: rest, sub => listStartsWith (a :: rest) sub || listHasSub rest sub

/-- JavaScript `s.includes(sub)` on strings, as used by
`window.location.pathname.includes('google-callback')`. -/
def strIncludes (s sub : String) : Bool :=
  listHasSub s.toList sub.toList

/-- `URLSearchParams.prototype.get`: the value of the first query parameter
with the given name, or `null` (`none`) when absent. -/
def lookupParam (q : List (String × String)) (k : String) : Option String :=
  (q.find? (fun p => p.fst == k)).map Prod.snd

/-- The Google-callback `useEffect` in `AuthProvider`
(`AuthContext.jsx`): on mount it reads `code` from the query string and,
when a code is present and the pathname contains `google-callback`, issues
one `GET /auth/google/callback` code-exchange request; otherwise none. The
returned number counts the exchange requests this handler issues. -/
def authProviderGoogleExchanges (pathname : String) (query : List (String × String)) : Nat :=
  match lookupParam query "code" with
  | some _ => if strIncludes pathname "google-callback" then 1 else 0
  | none => 0

/-- Terminal view state of the `GoogleCallback` page: navigated somewhere,
or a failure panel with its message and the path of its back button. -/
inductive CallbackView where
  | navigated (path : String)
  | failure (message : String) (backPath : String)
deriving DecidableEq, Repr

/-- `processCallback` from `GoogleCallback.jsx`: with an `error` query
parameter it sets an error and issues no exchange; with no `code` it sets
an error and issues no exchange; with a `code` it calls the context's
`handleGoogleCallback` (one `GET /auth/google/callback` exchange) and
navigates to the dashboard on success or shows a failure panel on failure
(`exchangeOk` models the network outcome). The failure panel's button
navigates to `/login`. Returns the number of exchange requests issued by
this handler paired with the resulting view. -/
def processCallback (query : List (String × String)) (exchangeOk : Bool) :
    Nat × CallbackView :=
  if (lookupParam query "error").isSome then
    (0, .failure "Google login was cancelled or failed" "/login")
  else
    match lookupParam query "code" with
    | none => (0, .failure "No authorization code received from Google" "/login")
    | some _ =>
      if exchangeOk then (1, .navigated "/dashboard")
      else (1, .failure "Failed to complete Google login" "/login")

/-- Total number of `GET /auth/google/callback` code-exchange requests
issued on arrival at a callback URL: the `AuthProvider` mount effect and
the routed `GoogleCallback` page's mount effect both run. -/
def totalExchangeCalls (pathname : String) (query : List (String × String))
    (exchangeOk : Bool) : Nat :=
  authProviderGoogleExchanges pathname query + (processCallback query exchangeOk).fst

/-- A session user as destructured from backend responses
(`response.data.user`). -/
structure User where
  id : Nat
  email : String
  full_name : String
  role : String
deriving DecidableEq, Repr

/-- A successful `POST /auth/register` response body: an optional `tokens`
pair, the optional `user`, and an optional `message` (present when the
backend asks for e-mail verification instead of auto-login). -/
structure RegResponse where
  user : Option User
  tokens : Option (String × String)
  message : Option String
deriving DecidableEq, Repr

/-- What `register` in `AuthContext.jsx` returns to its caller: the user
on the auto-login path, or the raw response data otherwise. -/
inductive RegReturn where
  | loggedInUser (u : Option User)
  | rawData (r : RegResponse)
deriving DecidableEq, Repr

/-- `register(userData)` from `AuthContext.jsx`, after a successful
backend response `resp`, acting on storage `st` and prior user state `u0`:
if `response.data.tokens` is present, both tokens are persisted, the user
is set and returned; otherwise storage and user state are untouched and
the response data is returned to the caller. -/
def registerOp (st : Storage) (u0 : Option User) (resp : RegResponse) :
    Storage × Option User × RegReturn :=
  match resp.tokens with
  | some (a, r) =>
    ({ access_token := some a, refresh_token := some r }, resp.user, .loggedInUser resp.user)
  | none => (st, u0, .rawData resp)

/-- The registration form state of `Register` (`src/unnamed/part_005`). -/
structure RegForm where
  email : String
  password : String
  full_name : String
  phone : String
  role : String
deriving DecidableEq, Repr

/-- Client-side outcome of `Register.handleSubmit` before/at the point of
issuing the request: whether `register(formData)` was called, and the
validation error set, if any. -/
structure SubmitOut where
  requestIssued : Bool
  validationMsg : Option String
deriving DecidableEq, Repr

/-- The validation head of `Register.handleSubmit`: a password of fewer
than 8 characters sets a validation error and returns before any request;
otherwise `register(formData)` is awaited. -/
def registerHandleSubmit (form : RegForm) : SubmitOut :=
  if form.password.length < 8 then
    { requestIssued := false, validationMsg := some "Password must be at least 8 characters long" }
  else
    { requestIssued := true, validationMsg := none }

/-- The filter state of `ServiceList` (`ServiceList.jsx`): all three
fields always exist on the state object, initialised to empty strings. -/
structure Filters where
  category : String
  min_price : String
  max_price : String
deriving DecidableEq, Repr

/-- Enumeration of the filter state's own properties in insertion order,
as `new URLSearchParams(filters)` performs it: every field is serialised,
empty-valued fields included. -/
def filtersToParams (f : Filters) : List (String × String) :=
  [("category", f.category), ("min_price", f.min_price), ("max_price", f.max_price)]

/-- `URLSearchParams.prototype.toString` for the parameter values arising
here (no characters needing percent-encoding). -/
def urlParamsToString (ps : List (String × String)) : String :=
  String.intercalate "&" (ps.map (fun p => p.fst ++ "=" ++ p.snd))

/-- The URL issued by `serviceService.searchServices`
(`src/unnamed/part_010`): `/services/search?` followed by the serialised
filter object. -/
def searchServicesUrl (f : Filters) : String :=
  "/services/search?" ++ urlParamsToString (filtersToParams f)

/-- A service as rendered by the search page. -/
structure Service where
  id : Nat
  name : String
  category : String
  price : Nat
deriving DecidableEq, Repr

/-- The body of a `GET /services/search` response; `services` may be
absent (`data.services || []` in `ServiceList.fetchServices`). -/
structure SearchData where
  services : Option (List Service)
deriving DecidableEq, Repr

/-- `setServices(data.services || [])` from `ServiceList.fetchServices`. -/
def servicesFromData (d : SearchData) : List Service :=
  d.services.getD []

/-- A rendered `ServiceCard` element, keyed by the service id
(`services.map(service => <ServiceCard key={service.id} ... />)`). -/
structure CardElem where
  key : Nat
  service : Service
deriving DecidableEq, Repr

/-- The card grid rendered by `ServiceList`: one card per returned
service, in order. -/
def renderServiceCards (ss : List Service) : List CardElem :=
  ss.map (fun s => ⟨s.id, s⟩)

/-- A booking as held in the `CleanerBookings` local list (the fields the
page reads). -/
structure Booking where
  id : Nat
  status : String
  customer_name : String
  scheduled_date : String
  start_time : String
  total_price : Nat
  special_instructions : Option String
deriving DecidableEq, Repr

/-- Observable outcome of `CleanerBookings.handleStatusUpdate`: the new
local list, whether the failure alert fired, and how many status-update
and list-fetch requests the handler issued. -/
structure StatusUpdateOut where
  bookings : List Booking
  alerted : Bool
  updateCalls : Nat
  fetchCalls : Nat
deriving DecidableEq, Repr

/-- `handleStatusUpdate(bookingId, newStatus)` from `CleanerBookings.jsx`:
awaits `bookingService.updateStatus` (one PATCH; `updateOk` models its
outcome); on success it maps the local list, replacing the status of
entries whose id matches and keeping every other entry as is — it never
refetches the list; on failure it alerts and leaves the list unchanged. -/
def handleStatusUpdate (updateOk : Bool) (bs : List Booking) (bookingId : Nat)
    (newStatus : String) : StatusUpdateOut :=
  if updateOk then
    { bookings := bs.map (fun b => if b.id == bookingId then { b with status := newStatus } else b)
      alerted := false, updateCalls := 1, fetchCalls := 0 }
  else
    { bookings := bs, alerted := true, updateCalls := 1, fetchCalls := 0 }

end CleanApp

namespace CleanApp

/-- Backend behaviour relevant to the mount-time `checkAuth` flow: how
`GET /auth/me` answers given the Authorization header it receives
(`.ok u` on success, `.error s` for an HTTP error with status `s`), and
the network outcome of `POST /auth/refresh` as in `respInterceptorCore`. -/
structure MeBackend where
  whoami : Option String → Except Nat User
  refreshResult : Option (String × String)

/-- Observable outcome of one `api.get('/auth/me')` issued through the
shared client: final storage, any `window.location.href` assignment, the
number of refresh calls and of who-am-I requests issued, and the settled
promise (`.ok u` or a rejection). -/
structure PipelineOut where
  storage : Storage
  nav : Option String
  refreshCalls : Nat
  whoamiCalls : Nat
  result : Except Unit User
deriving Repr

/-- One pass of the `api` pipeline for `GET /auth/me`, fuelled (the
`_retry` flag bounds the recursion depth at two; the fuel-exhausted case is
unreachable from `apiGetMe`): the request interceptor attaches the stored
token, the backend answers, and on an HTTP error the response interceptor
runs; a `.retry` action reissues the request through the same pipeline,
re-reading the (possibly refreshed) storage. -/
def apiGetMeAux (b : MeBackend) : Nat → Storage → Config → PipelineOut
  | 0, st, _ =>
    { storage := st, nav := none, refreshCalls := 0, whoamiCalls := 0, result := .error () }
  | fuel + 1, st, cfg =>
    let cfg1 := requestInterceptor st cfg
    match b.whoami cfg1.authorization with
    | .ok u =>
      { storage := st, nav := none, refreshCalls := 0, whoamiCalls := 1, result := .ok u }
    | .error status =>
      let out := respInterceptorCore st b.refreshResult cfg1 status
      match out.action with
      | .reject =>
        { storage := out.storage, nav := out.nav, refreshCalls := out.refreshCalls
          whoamiCalls := 1, result := .error () }
      | .retry cfg2 =>
        let rec1 := apiGetMeAux b fuel out.storage cfg2
        { storage := rec1.storage
          nav := rec1.nav.orElse (fun _ => out.nav)
          refreshCalls := out.refreshCalls + rec1.refreshCalls
          whoamiCalls := 1 + rec1.whoamiCalls
          result := rec1.result }

/-- `api.get('/auth/me')` as issued by `checkAuth`: a fresh config with no
Authorization header and no `_retry` marker, sent through the pipeline. -/
def apiGetMe (b : MeBackend) (st : Storage) : PipelineOut :=
  apiGetMeAux b 2 st ⟨"/auth/me", none, false⟩

/-- Outcome of the mount-time `checkAuth` in `AuthContext.jsx`: final
storage, the resulting `user` state, call counts and any navigation. -/
structure CheckAuthOut where
  storage : Storage
  user : Option User
  refreshCalls : Nat
  whoamiCalls : Nat
  nav : Option String
deriving DecidableEq, Repr

/-- `checkAuth` from the mount `useEffect` of `AuthProvider`: with no
stored access token it does nothing; otherwise it awaits
`api.get('/auth/me')`, sets the user on success, and on any failure
removes both tokens from storage and leaves the user unset. -/
def checkAuth (b : MeBackend) (st : Storage) : CheckAuthOut :=
  match st.access_token with
  | none => { storage := st, user := none, refreshCalls := 0, whoamiCalls := 0, nav := none }
  | some _ =>
    let p := apiGetMe b st
    match p.result with
    | .ok u =>
      { storage := p.storage, user := some u, refreshCalls := p.refreshCalls
        whoamiCalls := p.whoamiCalls, nav := p.nav }
    | .error _ =>
      { storage := ⟨none, none⟩, user := none, refreshCalls := p.refreshCalls
        whoamiCalls := p.whoamiCalls, nav := p.nav }

/-- C5: For every request issued through the HTTP client while an access
token is stored, the outgoing request carries the header
`Authorization: Bearer <that token>`; while no token is stored, the config
passes through unchanged and no Authorization header is added. -/
theorem request_carries_bearer_token (st : Storage) (c : Config) :
    (∀ t, st.access_token = some t →
      requestInterceptor st c = { c with authorization := some ("Bearer " ++ t) }) ∧
    (st.access_token = none → requestInterceptor st c = c) := by
  constructor
  · intro t ht
    simp [requestInterceptor, ht]
  · intro h
    simp [requestInterceptor, h]

/-- Witness for C5 at a concrete storage and config. -/
theorem request_carries_bearer_token_witness :
    requestInterceptor ⟨some "tokA", some "tokR"⟩ ⟨"/bookings", none, false⟩ =
      { url := "/bookings", authorization := some ("Bearer " ++ "tokA"), retryFlag := false } ∧
    requestInterceptor ⟨none, none⟩ ⟨"/bookings", none, false⟩ =
      ⟨"/bookings", none, false⟩ := by
  refine ⟨?_, ?_⟩
  · exact (request_carries_bearer_token ⟨some "tokA", some "tokR"⟩
      ⟨"/bookings", none, false⟩).1 "tokA" rfl
  · exact (request_carries_bearer_token ⟨none, none⟩
      ⟨"/bookings", none, false⟩).2 rfl

/-- C1: A 401 on a not-yet-retried request, with a refresh token in storage
and a successful refresh, causes exactly one refresh call, persists the
returned token pair to storage, and reissues the original request exactly
once with the new access token (config marked retried); any config already
marked retried that fails with 401 again is rejected with no further
refresh, no storage change and no navigation. -/
theorem refresh_retry_once (st : Storage) (cfg : Config) (rt a2 r2 : String)
    (hflag : cfg.retryFlag = false) (hrt : st.refresh_token = some rt) :
    (respInterceptorCore st (some (a2, r2)) cfg 401).refreshCalls = 1 ∧
    (respInterceptorCore st (some (a2, r2)) cfg 401).storage =
      ⟨some a2, some r2⟩ ∧
    (respInterceptorCore st (some (a2, r2)) cfg 401).action =
      .retry { cfg with retryFlag := true, authorization := some ("Bearer " ++ a2) } ∧
    (∀ (st2 : Storage) (rr2 : Option (String × String)) (c2 : Config),
      c2.retryFlag = true →
        respInterceptorCore st2 rr2 c2 401 =
          { storage := st2, nav := none, refreshCalls := 0, action := .reject }) := by
  refine ⟨?_, ?_, ?_, ?_⟩
  · simp [respInterceptorCore, hflag, hrt]
  · simp [respInterceptorCore, hflag, hrt]
  · simp [respInterceptorCore, hflag, hrt]
  · intro st2 rr2 c2 h2
    simp [respInterceptorCore, h2]

/-- Witness for C1 at a concrete storage, config and refresh outcome. -/
theorem refresh_retry_once_witness :
    (respInterceptorCore ⟨some "oldA", some "oldR"⟩ (some ("newA", "newR"))
        ⟨"/auth/me", some "Bearer oldA", false⟩ 401).refreshCalls = 1 ∧
    (respInterceptorCore ⟨some "oldA", some "oldR"⟩ (some ("newA", "newR"))
        ⟨"/auth/me", some "Bearer oldA", false⟩ 401).storage = ⟨some "newA", some "newR"⟩ ∧
    (respInterceptorCore ⟨some "oldA", some "oldR"⟩ (some ("newA", "newR"))
        ⟨"/auth/me", some "Bearer oldA", false⟩ 401).action =
      .retry { url := "/auth/me", authorization := some ("Bearer " ++ "newA"), retryFlag := true } ∧
    (∀ (st2 : Storage) (rr2 : Option (String × String)) (c2 : Config),
      c2.retryFlag = true →
        respInterceptorCore st2 rr2 c2 401 =
          { storage := st2, nav := none, refreshCalls := 0, action := .reject }) :=
  refresh_retry_once ⟨some "oldA", some "oldR"⟩
    ⟨"/auth/me", some "Bearer oldA", false⟩ "oldR" "newA" "newR" rfl rfl

/-- Counterexample to C2: with an access token stored but no refresh token,
a first 401 makes the interceptor reject the original error with storage
untouched (access token still present) and no navigation — it does not
clear the tokens and does not redirect to the login route. -/
theorem no_refresh_token_counterexample :
    respInterceptorCore ⟨some "tokA", none⟩ none ⟨"/bookings", some "Bearer tokA", false⟩ 401 =
      { storage := ⟨some "tokA", none⟩, nav := none, refreshCalls := 0, action := .reject } := by
  rfl

/-- C2 (amended): on a first 401, if a refresh token is present and the
refresh call fails, both tokens are removed from storage and the client is
navigated to `/login`; if no refresh token is present, the interceptor
rejects with the original error, leaving storage unchanged and performing
no navigation. -/
theorem refresh_failure_clears_tokens (st : Storage) (cfg : Config) (rt : String)
    (hflag : cfg.retryFlag = false) :
    (st.refresh_token = some rt →
      respInterceptorCore st none cfg 401 =
        { storage := ⟨none, none⟩, nav := some "/login", refreshCalls := 1, action := .reject }) ∧
    (st.refresh_token = none →
      respInterceptorCore st none cfg 401 =
        { storage := st, nav := none, refreshCalls := 0, action := .reject }) := by
  constructor
  · intro hrt
    simp [respInterceptorCore, hflag, hrt]
  · intro hrt
    simp [respInterceptorCore, hflag, hrt]

/-- Witness for the amended C2 at concrete storages and a concrete config. -/
theorem refresh_failure_clears_tokens_witness :
    respInterceptorCore ⟨some "tokA", some "tokR"⟩ none ⟨"/bookings", some "Bearer tokA", false⟩ 401 =
      { storage := ⟨none, none⟩, nav := some "/login", refreshCalls := 1, action := .reject } ∧
    respInterceptorCore ⟨some "tokB", none⟩ none ⟨"/services/search?", none, false⟩ 401 =
      { storage := ⟨some "tokB", none⟩, nav := none, refreshCalls := 0, action := .reject } := by
  refine ⟨?_, ?_⟩
  · exact (refresh_failure_clears_tokens ⟨some "tokA", some "tokR"⟩
      ⟨"/bookings", some "Bearer tokA", false⟩ "tokR" rfl).1 rfl
  · exact (refresh_failure_clears_tokens ⟨some "tokB", none⟩
      ⟨"/services/search?", none, false⟩ "" rfl).2 rfl

/-- Counterexample to C4: with both tokens stored and a backend whose
`GET /auth/me` answers 401, the mount-time check issues one token-refresh
call and two who-am-I requests — not zero refresh calls and a single
who-am-I call as claimed — because `/auth/me` goes through the shared
client whose 401 interceptor refreshes and retries. -/
theorem checkAuth_counterexample :
    (checkAuth ⟨fun _ => .error 401, some ("newA2", "newR2")⟩
        ⟨some "tokA3", some "tokR3"⟩).refreshCalls = 1 ∧
    (checkAuth ⟨fun _ => .error 401, some ("newA2", "newR2")⟩
        ⟨some "tokA3", some "tokR3"⟩).whoamiCalls = 2 := by
  constructor <;> rfl

/-- C4 (amended): on mount with an access token stored, `checkAuth` issues
a who-am-I call carrying that token through the shared client. If the call
succeeds, it is the single who-am-I call and no refresh call is issued; if
it fails with a non-401 status, or with 401 while no refresh token is
stored, no refresh call is issued, both tokens are removed and the user
stays unset. If it fails with 401 while a refresh token is stored, the
client's interceptor issues exactly one refresh call; when that refresh
fails there is no retry (a single who-am-I call), the interceptor clears
both tokens and navigates to the login route; when it succeeds the
who-am-I call is retried exactly once (two who-am-I calls), the user is
set with the refreshed tokens kept if the retry succeeds, and every
failure outcome ends with both tokens removed and the user unset. -/
theorem checkAuth_amended (b : MeBackend) (st : Storage) (t : String)
    (ht : st.access_token = some t) :
    (∀ u, b.whoami (some ("Bearer " ++ t)) = .ok u →
      checkAuth b st =
        { storage := st, user := some u, refreshCalls := 0, whoamiCalls := 1, nav := none }) ∧
    (∀ s, b.whoami (some ("Bearer " ++ t)) = .error s → s ≠ 401 →
      checkAuth b st =
        { storage := ⟨none, none⟩, user := none, refreshCalls := 0
          whoamiCalls := 1, nav := none }) ∧
    (b.whoami (some ("Bearer " ++ t)) = .error 401 → st.refresh_token = none →
      checkAuth b st =
        { storage := ⟨none, none⟩, user := none, refreshCalls := 0
          whoamiCalls := 1, nav := none }) ∧
    (∀ rt, b.whoami (some ("Bearer " ++ t)) = .error 401 → st.refresh_token = some rt →
      (checkAuth b st).refreshCalls = 1 ∧
      (b.refreshResult = none →
        checkAuth b st =
          { storage := ⟨none, none⟩, user := none, refreshCalls := 1
            whoamiCalls := 1, nav := some "/login" }) ∧
      (∀ a2 r2, b.refreshResult = some (a2, r2) →
        (checkAuth b st).whoamiCalls = 2 ∧
        (∀ u2, b.whoami (some ("Bearer " ++ a2)) = .ok u2 →
          checkAuth b st =
            { storage := ⟨some a2, some r2⟩, user := some u2, refreshCalls := 1
              whoamiCalls := 2, nav := none }) ∧
        (∀ e2, b.whoami (some ("Bearer " ++ a2)) = .error e2 →
          checkAuth b st =
            { storage := ⟨none, none⟩, user := none, refreshCalls := 1
              whoamiCalls := 2, nav := none }))) := by
  refine ⟨?_, ?_, ?_, ?_⟩
  · intro u hu
    simp [checkAuth, apiGetMe, apiGetMeAux, requestInterceptor, ht, hu]
  · intro s hs hs401
    simp [checkAuth, apiGetMe, apiGetMeAux, requestInterceptor, respInterceptorCore,
      ht, hs, hs401]
  · intro h401 hrt
    simp [checkAuth, apiGetMe, apiGetMeAux, requestInterceptor, respInterceptorCore,
      ht, h401, hrt]
  · intro rt h401 hrt
    refine ⟨?_, ?_, ?_⟩
    · rcases hR : b.refreshResult with _ | ⟨a2, r2⟩
      · simp [checkAuth, apiGetMe, apiGetMeAux, requestInterceptor, respInterceptorCore,
          ht, h401, hrt, hR]
      · rcases hW2 : b.whoami (some ("Bearer " ++ a2)) with e2 | u2
        · simp [checkAuth, apiGetMe, apiGetMeAux, requestInterceptor, respInterceptorCore,
            ht, h401, hrt, hR, hW2]
        · simp [checkAuth, apiGetMe, apiGetMeAux, requestInterceptor, respInterceptorCore,
            ht, h401, hrt, hR, hW2]
    · intro hR
      simp [checkAuth, apiGetMe, apiGetMeAux, requestInterceptor, respInterceptorCore,
        ht, h401, hrt, hR]
    · intro a2 r2 hR
      refine ⟨?_, ?_, ?_⟩
      · rcases hW2 : b.whoami (some ("Bearer " ++ a2)) with e2 | u2
        · simp [checkAuth, apiGetMe, apiGetMeAux, requestInterceptor, respInterceptorCore,
            ht, h401, hrt, hR, hW2]
        · simp [checkAuth, apiGetMe, apiGetMeAux, requestInterceptor, respInterceptorCore,
            ht, h401, hrt, hR, hW2]
      · intro u2 hW2
        simp [checkAuth, apiGetMe, apiGetMeAux, requestInterceptor, respInterceptorCore,
          ht, h401, hrt, hR, hW2]
      · intro e2 hW2
        simp [checkAuth, apiGetMe, apiGetMeAux, requestInterceptor, respInterceptorCore,
          ht, h401, hrt, hR, hW2]

/-- Witness for the amended C4: a concrete backend whose who-am-I call
succeeds under the stored token resolves the user with no refresh call. -/
theorem checkAuth_amended_witness :
    checkAuth ⟨fun h => if h = some "Bearer tokA4" then .ok ⟨7, "a@b.c", "Ada", "customer"⟩
        else .error 401, none⟩
      ⟨some "tokA4", some "tokR4"⟩ =
      { storage := ⟨some "tokA4", some "tokR4"⟩, user := some ⟨7, "a@b.c", "Ada", "customer"⟩
        refreshCalls := 0, whoamiCalls := 1, nav := none } :=
  (checkAuth_amended
    ⟨fun h => if h = some "Bearer tokA4" then .ok ⟨7, "a@b.c", "Ada", "customer"⟩
        else .error 401, none⟩
    ⟨some "tokA4", some "tokR4"⟩ "tokA4" rfl).1 ⟨7, "a@b.c", "Ada", "customer"⟩ (by rfl)

/-- C10: for every error that carries no HTTP response (a pure
network/transport failure), the response interceptor faults — it resolves
to the thrown dereference error, not to a rejection with the original
error — because `error.response.status` is read before any guard. -/
theorem interceptor_faults_without_response (st : Storage)
    (rr : Option (String × String)) (cfg : Config) :
    responseInterceptorErr st rr ⟨cfg, none⟩ = .error () := by
  rfl

/-- C3, evaluated at the failing input: arrival at `/google-callback` with
a `code` query parameter issues two code-exchange requests — one from the
`AuthProvider` mount effect, one from the `GoogleCallback` page — not
exactly one as the spec requires; with an `error` parameter, zero exchange
requests are issued and a failure panel with a back-to-login path is
shown. -/
theorem google_callback_double_exchange :
    totalExchangeCalls "/google-callback" [("code", "abc123")] true = 2 ∧
    authProviderGoogleExchanges "/google-callback" [("code", "abc123")] = 1 ∧
    (processCallback [("code", "abc123")] true).fst = 1 ∧
    totalExchangeCalls "/google-callback" [("error", "access_denied")] true = 0 ∧
    (processCallback [("error", "access_denied")] true).snd =
      .failure "Google login was cancelled or failed" "/login" := by
  refine ⟨?_, ?_, ?_, ?_, ?_⟩ <;> decide

/-- C6: a successful registration whose response contains a token pair
persists both tokens and sets the user (auto-login); one whose response
carries no tokens leaves storage and user state untouched and returns the
response data (its message) to the caller. -/
theorem register_tokens_or_message (st : Storage) (u0 : Option User)
    (resp : RegResponse) :
    (∀ a r, resp.tokens = some (a, r) →
      registerOp st u0 resp =
        (⟨some a, some r⟩, resp.user, .loggedInUser resp.user)) ∧
    (resp.tokens = none → registerOp st u0 resp = (st, u0, .rawData resp)) := by
  constructor
  · intro a r h
    simp [registerOp, h]
  · intro h
    simp [registerOp, h]

/-- Witness for C6 at a token-bearing and a message-only response. -/
theorem register_tokens_or_message_witness :
    registerOp ⟨none, none⟩ none
        ⟨some ⟨5, "x@y.z", "Bea", "cleaner"⟩, some ("a5", "r5"), none⟩ =
      (⟨some "a5", some "r5"⟩, some ⟨5, "x@y.z", "Bea", "cleaner"⟩,
        .loggedInUser (some ⟨5, "x@y.z", "Bea", "cleaner"⟩)) ∧
    registerOp ⟨none, none⟩ none ⟨none, none, some "Please verify your email"⟩ =
      (⟨none, none⟩, none, .rawData ⟨none, none, some "Please verify your email"⟩) := by
  refine ⟨?_, ?_⟩
  · exact (register_tokens_or_message ⟨none, none⟩ none
      ⟨some ⟨5, "x@y.z", "Bea", "cleaner"⟩, some ("a5", "r5"), none⟩).1 "a5" "r5" rfl
  · exact (register_tokens_or_message ⟨none, none⟩ none
      ⟨none, none, some "Please verify your email"⟩).2 rfl

/-- Counterexample to C7: with the filter state `category=deep,
min_price=500`, the issued search URL also carries an empty `max_price`
parameter — the request does not carry exactly the two claimed
parameters. -/
theorem search_params_counterexample :
    searchServicesUrl ⟨"deep", "500", ""⟩ =
      "/services/search?category=deep&min_price=500&max_price=" ∧
    searchServicesUrl ⟨"deep", "500", ""⟩ ≠
      "/services/search?category=deep&min_price=500" ∧
    filtersToParams ⟨"deep", "500", ""⟩ =
      [("category", "deep"), ("min_price", "500"), ("max_price", "")] := by
  refine ⟨rfl, ?_, rfl⟩
  decide

/-- C7 (amended): viewing the search page with `category=deep` and
`min_price=500` issues a request carrying those two parameters together
with an empty `max_price` (every filter field is serialised), and each
returned service is rendered as one card keyed by its id, in order. -/
theorem search_request_and_render (d : SearchData) (i : Nat) (s : Service)
    (hs : (servicesFromData d)[i]? = some s) :
    searchServicesUrl ⟨"deep", "500", ""⟩ =
      "/services/search?category=deep&min_price=500&max_price=" ∧
    (renderServiceCards (servicesFromData d)).length = (servicesFromData d).length ∧
    (renderServiceCards (servicesFromData d))[i]? = some ⟨s.id, s⟩ := by
  refine ⟨rfl, ?_, ?_⟩
  · simp [renderServiceCards]
  · simp [renderServiceCards, hs]

/-- Witness for the amended C7 at a concrete one-service response. -/
theorem search_request_and_render_witness :
    searchServicesUrl ⟨"deep", "500", ""⟩ =
      "/services/search?category=deep&min_price=500&max_price=" ∧
    (renderServiceCards (servicesFromData ⟨some [⟨9, "Deep Clean", "deep", 600⟩]⟩)).length =
      (servicesFromData ⟨some [⟨9, "Deep Clean", "deep", 600⟩]⟩).length ∧
    (renderServiceCards (servicesFromData ⟨some [⟨9, "Deep Clean", "deep", 600⟩]⟩))[0]? =
      some ⟨9, ⟨9, "Deep Clean", "deep", 600⟩⟩ :=
  search_request_and_render ⟨some [⟨9, "Deep Clean", "deep", 600⟩]⟩ 0
    ⟨9, "Deep Clean", "deep", 600⟩ rfl

/-- Elementwise effect of a successful status update on the local list:
the entry at any index is either status-replaced (id match) or kept. -/
theorem handleStatusUpdate_getElem (bs : List Booking) (bookingId : Nat)
    (newStatus : String) (i : Nat) (b : Booking) (hb : bs[i]? = some b) :
    (handleStatusUpdate true bs bookingId newStatus).bookings[i]? =
      some (if b.id = bookingId then { b with status := newStatus } else b) := by
  simp [handleStatusUpdate, hb]

/-- C8: after a successful `pending → confirmed` update followed by a
successful `confirmed → in_progress` update on the same booking id, each
step issues no list refetch, the list length is preserved, the entries
whose id matches have exactly their status field replaced (all other
fields equal), and every other entry is unchanged. -/
theorem cleaner_status_update_frame (bs : List Booking) (bookingId : Nat)
    (i : Nat) (b : Booking) (hb : bs[i]? = some b) :
    (handleStatusUpdate true bs bookingId "confirmed").fetchCalls = 0 ∧
    (handleStatusUpdate true (handleStatusUpdate true bs bookingId "confirmed").bookings
        bookingId "in_progress").fetchCalls = 0 ∧
    (handleStatusUpdate true bs bookingId "confirmed").bookings.length = bs.length ∧
    (handleStatusUpdate true (handleStatusUpdate true bs bookingId "confirmed").bookings
        bookingId "in_progress").bookings.length = bs.length ∧
    (b.id = bookingId →
      (handleStatusUpdate true bs bookingId "confirmed").bookings[i]? =
        some { b with status := "confirmed" } ∧
      (handleStatusUpdate true (handleStatusUpdate true bs bookingId "confirmed").bookings
          bookingId "in_progress").bookings[i]? =
        some { b with status := "in_progress" }) ∧
    (b.id ≠ bookingId →
      (handleStatusUpdate true bs bookingId "confirmed").bookings[i]? = some b ∧
      (handleStatusUpdate true (handleStatusUpdate true bs bookingId "confirmed").bookings
          bookingId "in_progress").bookings[i]? = some b) := by
  have h1 := handleStatusUpdate_getElem bs bookingId "confirmed" i b hb
  have h2 := handleStatusUpdate_getElem
    (handleStatusUpdate true bs bookingId "confirmed").bookings bookingId "in_progress" i _ h1
  refine ⟨rfl, rfl, by simp [handleStatusUpdate], by simp [handleStatusUpdate], ?_, ?_⟩
  · intro h
    constructor
    · rw [h1]
      simp [h]
    · rw [h2]
      simp [h]
  · intro h
    constructor
    · rw [h1]
      simp [h]
    · rw [h2]
      simp [h]

/-- Witness for C8 on a concrete two-booking list, updating the first. -/
theorem cleaner_status_update_frame_witness :
    (handleStatusUpdate true
        [⟨1, "pending", "Ana", "2026-10-12", "09:00", 500, none⟩,
         ⟨2, "pending", "Raj", "2026-10-13", "10:00", 700, none⟩] 1 "confirmed").bookings[0]? =
      some ⟨1, "confirmed", "Ana", "2026-10-12", "09:00", 500, none⟩ ∧
    (handleStatusUpdate true
        (handleStatusUpdate true
          [⟨1, "pending", "Ana", "2026-10-12", "09:00", 500, none⟩,
           ⟨2, "pending", "Raj", "2026-10-13", "10:00", 700, none⟩] 1 "confirmed").bookings
        1 "in_progress").bookings[0]? =
      some ⟨1, "in_progress", "Ana", "2026-10-12", "09:00", 500, none⟩ :=
  (cleaner_status_update_frame
    [⟨1, "pending", "Ana", "2026-10-12", "09:00", 500, none⟩,
     ⟨2, "pending", "Raj", "2026-10-13", "10:00", 700, none⟩] 1 0
    ⟨1, "pending", "Ana", "2026-10-12", "09:00", 500, none⟩ rfl).2.2.2.2.1 rfl

/-- C9: a registration submission whose password has fewer than 8
characters is blocked client-side — a validation error is set and no
registration request is issued; with 8 or more characters the request is
issued and no validation error is set. -/
theorem register_password_validation (form : RegForm) :
    (form.password.length < 8 →
      registerHandleSubmit form =
        { requestIssued := false
          validationMsg := some "Password must be at least 8 characters long" }) ∧
    (8 ≤ form.password.length →
      registerHandleSubmit form = { requestIssued := true, validationMsg := none }) := by
  constructor
  · intro h
    simp [registerHandleSubmit, h]
  · intro h
    simp [registerHandleSubmit, Nat.not_lt.mpr h]

/-- Witness for C9 at a 5-character and a 12-character password. -/
theorem register_password_validation_witness :
    registerHandleSubmit ⟨"a@b.c", "short", "Ana", "", "customer"⟩ =
      { requestIssued := false
        validationMsg := some "Password must be at least 8 characters long" } ∧
    registerHandleSubmit ⟨"a@b.c", "longpassword", "Ana", "", "customer"⟩ =
      { requestIssued := true, validationMsg := none } := by
  refine ⟨?_, ?_⟩
  · exact (register_password_validation ⟨"a@b.c", "short", "Ana", "", "customer"⟩).1
      (by decide)
  · exact (register_password_validation ⟨"a@b.c", "longpassword", "Ana", "", "customer"⟩).2
      (by decide)

end CleanApp
